import Mathlib

/-!
# Number Guessing Game Show — verification of the orchestration core

A shallow embedding of the repository's game core:

* `src/agents/referee_agent.py` — `GameRules`, `RefereeAgent` (secret number,
  authoritative valid range, per-player tries).
* `src/agents/player_agent.py` — `GameHistory`, `PlayerState`, `PlayerAgent`
  (deterministic guess selection, decision flow).
* `src/main.py` — `GameEngine` (turn processing, shared state propagation).

External text-generation (LLM) calls are modeled by explicit oracle inputs:
the number a `SecretNumber` response carries, the reasoning text of a
`PlayerAction`, and the narration description (`Option String`, where `none`
models a failed narration call whose exception propagates). Python `dict`s
keyed by player id are modeled as functions `String → Option _`; Python
truthiness tests (`if not self.secret_number`, `if state.last_feedback`)
are modeled explicitly, since `None` and `0` / `""` are all falsy.
-/

namespace NumberGame

/-- `GameRules` dataclass (referee_agent.py lines 32-40). The fields
`allowed_actions`, `turn_limits` and `scoring_rules` are never read by the
modeled logic and are omitted. -/
structure GameRules where
  min_number : Int := 1
  max_number : Int := 100
  max_attempts : Int := 10
  max_tries_per_player : Int := 3
deriving DecidableEq

/-- `GuessResult` pydantic model (referee_agent.py lines 15-20). -/
structure GuessResult where
  is_correct : Bool
  feedback : String
  distance : String
  valid_range : Int × Int
  tries_remaining : Int
deriving DecidableEq

/-- Mutable state of a `RefereeAgent` instance (referee_agent.py lines 57-59):
`secret_number = None`, `valid_range = (1, 100)`, `player_tries = {}`. -/
structure RefereeState where
  secret_number : Option Int := none
  valid_range : Int × Int := (1, 100)
  player_tries : String → Option Int := fun _ => none

/-- The referee state built by `RefereeAgent.__init__`. -/
def initialReferee : RefereeState := {}

/-- Python truthiness of `self.secret_number` as tested by
`if not self.secret_number` (referee_agent.py line 88): both `None` and the
integer `0` are falsy. -/
def secret_unset (st : RefereeState) : Bool :=
  match st.secret_number with
  | none => true
  | some s => s == 0

/-- `RefereeAgent.generate_secret_number` (referee_agent.py lines 61-72).
The agent call's structured response is the oracle input `chosen`. The method
unconditionally stores the newly chosen number and resets the valid range to
the rules' full range, then returns the stored secret. -/
def generate_secret_number (chosen : Int) (rules : GameRules) (st : RefereeState) :
    Int × RefereeState :=
  let st1 : RefereeState :=
    { st with secret_number := some chosen,
              valid_range := (rules.min_number, rules.max_number) }
  (chosen, st1)

/-- `RefereeAgent.update_range` (referee_agent.py lines 74-80), with the two
fields the method reads (`self.valid_range`, `self.secret_number`) passed
explicitly. -/
def update_range (valid_range : Int × Int) (secret_number guess : Int) : Int × Int :=
  let min_val := valid_range.1
  let max_val := valid_range.2
  if guess > secret_number then (min_val, guess - 1)
  else if guess < secret_number then (guess + 1, max_val)
  else (min_val, max_val)

/-- `RefereeAgent.get_tries_remaining` (referee_agent.py lines 82-85): on
first sight of a player id it inserts the constant `3` into `player_tries`
(note: not `rules.max_tries_per_player` — the method takes no rules). -/
def get_tries_remaining (st : RefereeState) (player_id : String) : Int × RefereeState :=
  match st.player_tries player_id with
  | some t => (t, st)
  | none =>
      let st1 : RefereeState :=
        { st with player_tries := fun q => if q = player_id then some 3 else st.player_tries q }
      (3, st1)

/-- `RefereeAgent.validate_guess` (referee_agent.py lines 87-126). The
lazily-regenerated secret's agent response is the oracle input `chosen`.
After the unset guard the stored secret is always `some _`, so the `getD 0`
default is never exercised. -/
def validate_guess (chosen guess : Int) (rules : GameRules) (player_id : String)
    (st : RefereeState) : GuessResult × RefereeState :=
  let st0 := if secret_unset st then (generate_secret_number chosen rules st).2 else st
  let secret := st0.secret_number.getD 0
  let tr := get_tries_remaining st0 player_id
  let tries0 := tr.1
  let st1 := tr.2
  if tries0 ≤ 0 then
    ({ is_correct := false, feedback := "No more tries remaining!", distance := "none",
       valid_range := st1.valid_range, tries_remaining := 0 }, st1)
  else
    let st2 : RefereeState :=
      { st1 with player_tries := fun q => if q = player_id then some (tries0 - 1)
                                          else st1.player_tries q }
    let tries1 := tries0 - 1
    if guess = secret then
      ({ is_correct := true,
         feedback := "Correct! The secret number was " ++ toString secret,
         distance := "correct", valid_range := st2.valid_range,
         tries_remaining := tries1 }, st2)
    else
      let new_range := update_range st2.valid_range secret guess
      let st3 : RefereeState := { st2 with valid_range := new_range }
      let distance := if guess > secret then "lower" else "higher"
      ({ is_correct := false,
         feedback := "The secret number is " ++ distance ++ " than " ++ toString guess,
         distance := distance, valid_range := new_range,
         tries_remaining := tries1 }, st3)

/-- A referee mid-game: secret 50, full range, no tries recorded yet. -/
def refereeWith50 : RefereeState :=
  { secret_number := some 50, valid_range := (1, 100), player_tries := fun _ => none }

/- ### Small frame lemmas about the referee operations -/

theorem get_tries_remaining_secret (st : RefereeState) (pid : String) :
    (get_tries_remaining st pid).2.secret_number = st.secret_number := by
  unfold get_tries_remaining
  cases st.player_tries pid <;> rfl

theorem get_tries_remaining_range (st : RefereeState) (pid : String) :
    (get_tries_remaining st pid).2.valid_range = st.valid_range := by
  unfold get_tries_remaining
  cases st.player_tries pid <;> rfl

theorem validate_guess_secret_eq (chosen guess : Int) (rules : GameRules)
    (pid : String) (st : RefereeState) :
    (validate_guess chosen guess rules pid st).2.secret_number =
      (if secret_unset st then some chosen else st.secret_number) := by
  unfold validate_guess
  set st0 := if secret_unset st then (generate_secret_number chosen rules st).2 else st with hst0
  have h0 : st0.secret_number = if secret_unset st then some chosen else st.secret_number := by
    rw [hst0]
    cases h : secret_unset st <;> simp [generate_secret_number]
  have h1 := get_tries_remaining_secret st0 pid
  dsimp only
  split
  · rw [h1, h0]
  · split
    · rw [h1, h0]
    · rw [h1, h0]

theorem update_range_keeps_secret (vr : Int × Int) (s g : Int)
    (h1 : vr.1 ≤ s) (h2 : s ≤ vr.2) :
    (update_range vr s g).1 ≤ s ∧ s ≤ (update_range vr s g).2 := by
  unfold update_range
  dsimp only
  split
  · constructor
    · exact h1
    · omega
  · split
    · constructor
      · omega
      · exact h2
    · exact ⟨h1, h2⟩

/-- C1: the claim that `generate_secret_number` is idempotent is false at a
concrete input: after a first call stores secret 42, a second call whose
agent response carries 7 returns 7 (not the stored 42) and overwrites the
stored secret with 7. -/
theorem C1_counterexample :
    (generate_secret_number 42 {} initialReferee).2.secret_number = some 42 ∧
    (generate_secret_number 7 {} (generate_secret_number 42 {} initialReferee).2).1 ≠ 42 ∧
    (generate_secret_number 7 {}
        (generate_secret_number 42 {} initialReferee).2).2.secret_number ≠ some 42 := by
  refine ⟨rfl, ?_, ?_⟩ <;> decide

/-- C1 (amended): `generate_secret_number` is not idempotent — every call
returns and stores the agent's newly chosen number, overwriting any secret
already set; a second call with a different agent choice changes the secret.
(In the program, regeneration is avoided only by `validate_guess`'s
falsy-secret guard, not by this method.) -/
theorem C1_regenerates (c1 c2 : Int) (rules : GameRules) (st : RefereeState) :
    (generate_secret_number c1 rules st).2.secret_number = some c1 ∧
    (generate_secret_number c2 rules (generate_secret_number c1 rules st).2).1 = c2 ∧
    (generate_secret_number c2 rules
        (generate_secret_number c1 rules st).2).2.secret_number = some c2 :=
  ⟨rfl, rfl, rfl⟩

/-- C4: the claim that the first-sight tries budget equals
`rules.max_tries_per_player` for every `GameRules` value is false at a
concrete input: with `max_tries_per_player = 5`, the first
`get_tries_remaining` call for a fresh player returns 3, and the first
`validate_guess` call reports `tries_remaining = 2` (3 − 1), not 5 − 1. -/
theorem C4_counterexample :
    (get_tries_remaining refereeWith50 "p1").1 = 3 ∧
    (validate_guess 0 10 { max_tries_per_player := 5 } "p1" refereeWith50).1.tries_remaining = 2 ∧
    ((2 : Int) ≠ ({ max_tries_per_player := 5 : GameRules }).max_tries_per_player - 1) := by
  refine ⟨rfl, ?_, ?_⟩ <;> decide

/-- C4 (amended): on first sight of a player, the Referee initializes that
player's tries budget to the constant 3, independent of any `GameRules`
value (`get_tries_remaining` takes no rules at all); this coincides with
`rules.max_tries_per_player` only when the configured budget is 3, as in
the shipped `GameEngine` configuration. -/
theorem C4_first_sight_constant (st : RefereeState) (player_id : String)
    (h : st.player_tries player_id = none) :
    (get_tries_remaining st player_id).1 = 3 ∧
    (get_tries_remaining st player_id).2.player_tries player_id = some 3 := by
  unfold get_tries_remaining
  rw [h]
  exact ⟨rfl, by simp⟩

/-- Witness for C4's amended theorem at a concrete fresh referee. -/
theorem C4_witness :
    (get_tries_remaining initialReferee "p1").1 = 3 ∧
    (get_tries_remaining initialReferee "p1").2.player_tries "p1" = some 3 :=
  C4_first_sight_constant initialReferee "p1" rfl

/-- C5: range narrowing follows the spec'd rule — `guess > secret` sets the
new max to `guess - 1` keeping the min, `guess < secret` sets the new min to
`guess + 1` keeping the max, and `guess = secret` leaves the range unchanged;
and in the concrete scenario (range `(1,100)`, secret 50, guess 75) the
referee returns `is_correct = false`, direction hint `"lower"` (LOWER), and
updated range `(1, 74)`. -/
theorem C5_narrowing (vr : Int × Int) (secret guess : Int) :
    (guess > secret → update_range vr secret guess = (vr.1, guess - 1)) ∧
    (guess < secret → update_range vr secret guess = (guess + 1, vr.2)) ∧
    (guess = secret → update_range vr secret guess = vr) ∧
    ((validate_guess 0 75 {} "p1" refereeWith50).1.is_correct = false ∧
     (validate_guess 0 75 {} "p1" refereeWith50).1.distance = "lower" ∧
     (validate_guess 0 75 {} "p1" refereeWith50).1.valid_range = (1, 74)) := by
  refine ⟨?_, ?_, ?_, by decide, by decide, by decide⟩
  · intro h
    unfold update_range
    simp [h]
  · intro h
    unfold update_range
    have h' : ¬ guess > secret := by omega
    simp [h, h']
  · intro h
    unfold update_range
    simp [h]

/-- Witness for C5 at the concrete scenario input. -/
theorem C5_witness : update_range (1, 100) 50 75 = (1, 74) :=
  (C5_narrowing (1, 100) 50 75).1 (by decide)

/-- C6: narrowing never excludes the secret — for every starting range that
contains the secret and any sequence of guesses, folding `update_range`
keeps the secret inside the range. -/
theorem C6_secret_never_excluded (vr : Int × Int) (s : Int) (guesses : List Int)
    (h1 : vr.1 ≤ s) (h2 : s ≤ vr.2) :
    (guesses.foldl (fun r g => update_range r s g) vr).1 ≤ s ∧
    s ≤ (guesses.foldl (fun r g => update_range r s g) vr).2 := by
  induction guesses generalizing vr with
  | nil => exact ⟨h1, h2⟩
  | cons g rest ih =>
      have hstep := update_range_keeps_secret vr s g h1 h2
      simpa using ih (update_range vr s g) hstep.1 hstep.2

/-- Witness for C6 at a concrete range, secret and guess sequence. -/
theorem C6_witness :
    (([75, 30, 60] : List Int).foldl (fun r g => update_range r 50 g) (1, 100)).1 ≤ 50 ∧
    (50 : Int) ≤ (([75, 30, 60] : List Int).foldl (fun r g => update_range r 50 g) (1, 100)).2 :=
  C6_secret_never_excluded (1, 100) 50 [75, 30, 60] (by decide) (by decide)

/-- C10: `validate_guess` never modifies a stored nonzero secret, but a
stored secret equal to 0 is treated as unset by the falsy check
`if not self.secret_number`, so every call regenerates a new secret (the
resulting secret is the agent's fresh choice, changing the secret
mid-game). -/
theorem C10_secret_frame (chosen guess : Int) (rules : GameRules) (pid : String)
    (st : RefereeState) :
    (∀ s : Int, st.secret_number = some s → s ≠ 0 →
       (validate_guess chosen guess rules pid st).2.secret_number = some s) ∧
    (st.secret_number = some 0 →
       (validate_guess chosen guess rules pid st).2.secret_number = some chosen) := by
  constructor
  · intro s hs hs0
    rw [validate_guess_secret_eq]
    have hunset : secret_unset st = false := by
      unfold secret_unset
      rw [hs]
      simpa using hs0
    rw [hunset]
    · exact hs
  · intro hs
    rw [validate_guess_secret_eq]
    have hunset : secret_unset st = true := by
      unfold secret_unset
      rw [hs]
      rfl
    rw [hunset]
    rfl

/-- Witness for C10: a nonzero secret (50) survives a guess untouched, while
a zero secret is regenerated to the agent's fresh choice (42). -/
theorem C10_witness :
    (validate_guess 99 75 {} "p1" refereeWith50).2.secret_number = some 50 ∧
    (validate_guess 42 75 {} "p1"
        { secret_number := some 0, valid_range := (1, 100),
          player_tries := fun _ => none }).2.secret_number = some 42 :=
  ⟨(C10_secret_frame 99 75 {} "p1" refereeWith50).1 50 rfl (by decide),
   (C10_secret_frame 42 75 {} "p1"
      { secret_number := some 0, valid_range := (1, 100),
        player_tries := fun _ => none }).2 rfl⟩

/- ### Player agent (src/agents/player_agent.py) -/

/-- Python's `range(lo, hi + 1)` over integers as an ordered list; empty when
`hi < lo`. -/
def intRange (lo hi : Int) : List Int :=
  (List.range (hi + 1 - lo).toNat).map fun i => lo + (i : Int)

/-- `GameHistory` pydantic model (player_agent.py lines 10-13). -/
structure GameHistory where
  narrator_feedback : List String := []
  other_player_guesses : List Int := []
  game_commentary : List String := []
deriving DecidableEq

/-- `PlayerState` dataclass (player_agent.py lines 21-31); `last_feedback`
and `game_history` default to Python `None`. -/
structure PlayerState where
  player_id : String
  min_range : Int := 1
  max_range : Int := 100
  previous_guesses : List Int := []
  last_feedback : Option String := none
  attempts : Int := 0
  valid_range : Int × Int := (1, 100)
  tries_remaining : Int := 3
  game_history : Option GameHistory := none
deriving DecidableEq

/-- `PlayerAction` pydantic model (player_agent.py lines 15-19); the
confidence float is modeled as a rational. -/
structure PlayerAction where
  action_type : String := "guess"
  number : Int
  confidence : Option Rat := none
  reasoning : String
deriving DecidableEq

/-- Mutable state of the single `PlayerAgent` instance
(player_agent.py lines 56-59); `GameEngine.__init__` creates exactly one
such agent, shared by every player of the game. -/
structure PlayerAgentState where
  game_history : GameHistory := {}
  previous_guesses : List Int := []
  valid_range : Int × Int := (1, 100)
  tries_remaining : Int := 3
deriving DecidableEq

/-- Python truthiness of an optional string (`if narrator_feedback:`):
`None` and the empty string are falsy. -/
def truthyStr : Option String → Bool
  | none => false
  | some s => !(s == "")

/-- Python truthiness of an optional integer (`if other_guess:`):
`None` and `0` are falsy. -/
def truthyInt : Option Int → Bool
  | none => false
  | some n => !(n == 0)

/-- `PlayerAgent.get_optimal_guess` (player_agent.py lines 67-76): filter the
integers of the player's current view of the valid range against the union of
the agent's own recorded guesses and the history's other-player guesses;
fall back to the range minimum when nothing remains, otherwise take the
middle element. A pure function of its inputs — deterministic, no
randomness. -/
def get_optimal_guess (valid_range : Int × Int) (previous_guesses other_player_guesses : List Int) :
    Int :=
  let min_val := valid_range.1
  let max_val := valid_range.2
  let all_guesses := previous_guesses ++ other_player_guesses
  let remaining_numbers := (intRange min_val max_val).filter fun n => !(all_guesses.contains n)
  if remaining_numbers.isEmpty then min_val
  else remaining_numbers.getD (remaining_numbers.length / 2) min_val

/-- Modelled from the spec: the GuessSelector contract of spec §4.2,
`selectNext(range, forbidden)` — the ordered list of integers in
`[range.min, range.max]` excluding every integer in `forbidden`; if the
filtered list is empty, return `range.min` as a fallback, otherwise return
the element at index `floor(length/2)`. Stated for comparison with the
source's `get_optimal_guess`. -/
def selectNext (range : Int × Int) (forbidden : List Int) : Int :=
  let candidates := (intRange range.1 range.2).filter fun n => decide (n ∉ forbidden)
  match candidates with
  | [] => range.1
  | c :: rest => (c :: rest).getD ((c :: rest).length / 2) range.1

/-- `PlayerAgent.update_game_history` (player_agent.py lines 61-65). -/
def update_game_history (ag : PlayerAgentState) (narrator_feedback : Option String)
    (other_guess : Option Int) : PlayerAgentState :=
  let ag1 := if truthyStr narrator_feedback then
      { ag with game_history := { ag.game_history with
          narrator_feedback := ag.game_history.narrator_feedback ++ [narrator_feedback.getD ""] } }
    else ag
  if truthyInt other_guess then
    { ag1 with game_history := { ag1.game_history with
        other_player_guesses := ag1.game_history.other_player_guesses ++ [other_guess.getD 0] } }
  else ag1

/-- `PlayerAgent.decide_action` (player_agent.py lines 78-113). The advisor
LLM call only supplies the free-form `reasoning` text (oracle input); the
code overwrites the returned action's `number` with the locally computed
`next_guess` and its `confidence` with `1 / (len(previous_guesses) + 1)`,
then appends `next_guess` to the agent's `previous_guesses` before
returning. -/
def decide_action (reasoning : String) (state : PlayerState) (ag : PlayerAgentState) :
    PlayerAction × PlayerAgentState :=
  let ag0 : PlayerAgentState := { ag with tries_remaining := state.tries_remaining }
  if ag0.tries_remaining ≤ 0 then
    ({ action_type := "forfeit", number := 0, confidence := some 0,
       reasoning := "No more tries remaining" }, ag0)
  else
    let ag1 := if truthyStr state.last_feedback then
        update_game_history ag0 state.last_feedback none
      else ag0
    let next_guess :=
      get_optimal_guess state.valid_range ag1.previous_guesses ag1.game_history.other_player_guesses
    let action : PlayerAction :=
      { action_type := "guess", number := next_guess,
        confidence := some (1 / ((ag1.previous_guesses.length : Rat) + 1)),
        reasoning := reasoning }
    let ag2 : PlayerAgentState := { ag1 with previous_guesses := ag1.previous_guesses ++ [next_guess] }
    (action, ag2)

theorem update_game_history_guesses (ag : PlayerAgentState) (fb : Option String) :
    (update_game_history ag fb none).previous_guesses = ag.previous_guesses ∧
    (update_game_history ag fb none).game_history.other_player_guesses =
      ag.game_history.other_player_guesses := by
  cases h : truthyStr fb <;> simp [update_game_history, truthyInt, h]

/-- C7: the guess selector computes exactly the spec'd GuessSelector
function of its inputs and nothing else — `get_optimal_guess` over
`(range, own guesses, other guesses)` equals the spec-modelled `selectNext`
over `(range, forbidden)` with `forbidden` the concatenation of the two
guess lists. Determinism is immediate: both are pure functions of their
arguments. -/
theorem C7_selector_matches_spec (valid_range : Int × Int)
    (previous_guesses other_player_guesses : List Int) :
    get_optimal_guess valid_range previous_guesses other_player_guesses =
      selectNext valid_range (previous_guesses ++ other_player_guesses) := by
  unfold get_optimal_guess selectNext
  dsimp only
  have hfilt :
      ((intRange valid_range.1 valid_range.2).filter
        fun n => !((previous_guesses ++ other_player_guesses).contains n)) =
      ((intRange valid_range.1 valid_range.2).filter
        fun n => decide (n ∉ previous_guesses ++ other_player_guesses)) := by
    apply List.filter_congr
    intro n _
    simp [List.contains, List.elem_iff]
  rw [hfilt]
  cases h : ((intRange valid_range.1 valid_range.2).filter
      fun n => decide (n ∉ previous_guesses ++ other_player_guesses)) with
  | nil => simp
  | cons c rest => simp

/-- C9: the claim that Player B's next guess-selection call never returns a
number Player A already guessed is false at a concrete input: with the
shared range fully exhausted — range `(30, 30)` and 30 already in the shared
agent's recorded guesses — `decide_action` falls back to the range minimum
and picks 30 again (the degenerate fallback of `get_optimal_guess`). -/
theorem C9_counterexample :
    ((30 : Int) ∈ ({ previous_guesses := [30] : PlayerAgentState }).previous_guesses) ∧
    (decide_action "r" { player_id := "player2", valid_range := (30, 30), tries_remaining := 2 }
        { previous_guesses := [30] }).1.number = 30 ∧
    get_optimal_guess (30, 30) [30] [] = 30 := by
  refine ⟨by decide, ?_, by decide⟩
  decide

/-- C9 (amended): whenever at least one number of the range remains
unguessed (the filtered candidate list is nonempty), the guess selector
never returns 30 once 30 is among the recorded guesses — so Player B, whose
selection call goes through the same shared agent that recorded Player A's
guess of 30, cannot repeat it; only the degenerate fully-exhausted-range
fallback (which returns `range.min`) can repeat a guessed number. -/
theorem C9_no_repeat_when_available (valid_range : Int × Int)
    (previous_guesses other_player_guesses : List Int)
    (h30 : (30 : Int) ∈ previous_guesses ++ other_player_guesses)
    (hleft : ((intRange valid_range.1 valid_range.2).filter
        fun n => !((previous_guesses ++ other_player_guesses).contains n)) ≠ []) :
    get_optimal_guess valid_range previous_guesses other_player_guesses ≠ 30 := by
  unfold get_optimal_guess
  dsimp only
  set remaining := ((intRange valid_range.1 valid_range.2).filter
      fun n => !((previous_guesses ++ other_player_guesses).contains n)) with hrem
  have hne : remaining.isEmpty = false := by
    cases hr : remaining with
    | nil => exact absurd hr hleft
    | cons c rest => rfl
  rw [hne]
  simp only [Bool.false_eq_true, if_false]
  have hlen : remaining.length / 2 < remaining.length := by
    have : 0 < remaining.length := by
      cases hr : remaining with
      | nil => exact absurd hr hleft
      | cons c rest => simp
    omega
  have hmem : remaining.getD (remaining.length / 2) valid_range.1 ∈ remaining := by
    rw [List.getD_eq_getElem remaining valid_range.1 hlen]
    exact List.getElem_mem hlen
  intro heq
  have hpass := (List.mem_filter.mp (hrem ▸ hmem)).2
  rw [heq] at hpass
  have : (30 : Int) ∉ previous_guesses ++ other_player_guesses := by
    simpa [List.contains, List.elem_iff] using hpass
  exact this h30

/-- Witness for C9's amended theorem: over range `(1, 100)` with 30 already
guessed, the selector picks something other than 30. -/
theorem C9_witness : get_optimal_guess (1, 100) [30] [] ≠ 30 :=
  C9_no_repeat_when_available (1, 100) [30] [] (by decide) (by decide)

/- ### Game engine (src/main.py) -/

/-- Result of one `GameEngine.process_guess` call. `finished b` is the
method's boolean return value; `narrationFailed` models the narration
call's exception propagating out of the method; `keyError` models the
`KeyError` of looking up an unknown player id. -/
inductive TurnResult where
  | finished (is_correct : Bool)
  | narrationFailed
  | keyError
deriving DecidableEq

/-- State of a `GameEngine` (main.py lines 20-46): the `players` dict, the
`game_state` dict's game-logic entries, the rules, and the mutable state of
the referee and of the single shared player agent. -/
structure EngineState where
  players : String → Option PlayerState := fun _ => none
  shared_valid_range : Int × Int := (1, 100)
  secret_number : Option Int := none
  last_guess : Option Int := none
  current_turn : Int := 0
  game_history : GameHistory := {}
  game_rules : GameRules := {}
  referee : RefereeState := {}
  player_agent : PlayerAgentState := {}

/-- The engine state built by `GameEngine.__init__` (main.py lines 20-46):
note line 45 hardcodes the configured rules
`GameRules(min_number=1, max_number=100, max_tries_per_player=3)` — the
`config` dict only carries model name and API key. -/
def initialEngine : EngineState :=
  { players := fun _ => none,
    shared_valid_range := (1, 100),
    secret_number := none, last_guess := none, current_turn := 0,
    game_history := {},
    game_rules := { min_number := 1, max_number := 100, max_tries_per_player := 3 },
    referee := initialReferee,
    player_agent := {} }

/-- The `PlayerState` that `GameEngine.start_game` constructs for a player
id (main.py lines 64-72). -/
def start_player (es : EngineState) (pid : String) : PlayerState :=
  { player_id := pid, previous_guesses := [],
    min_range := es.game_rules.min_number, max_range := es.game_rules.max_number,
    tries_remaining := es.game_rules.max_tries_per_player,
    valid_range := es.shared_valid_range,
    game_history := some es.game_history }

/-- `GameEngine.start_game` (main.py lines 60-76): insert one fresh
`PlayerState` per player id into the `players` dict, then generate the
secret (agent response `chosen`) and store it in the game state. -/
def start_game (chosen : Int) (player_ids : List String) (es : EngineState) : EngineState :=
  let players := player_ids.foldl
    (fun ps pid => fun q => if q = pid then some (start_player es pid) else ps q)
    es.players
  let gen := generate_secret_number chosen es.game_rules es.referee
  { es with players := players, referee := gen.2, secret_number := some gen.1 }

/-- `GameEngine.update_game_state` (main.py lines 48-58): replace the shared
range, record the guess, advance the turn counter, append the narration to
the shared history, and propagate range and history to every player. -/
def update_game_state (es : EngineState) (new_range : Int × Int) (guess : Int)
    (narration : String) : EngineState :=
  let gh : GameHistory :=
    { es.game_history with narrator_feedback := es.game_history.narrator_feedback ++ [narration] }
  { es with
      shared_valid_range := new_range, last_guess := some guess,
      current_turn := es.current_turn + 1, game_history := gh,
      players := fun q => (es.players q).map fun p =>
        { p with
            valid_range := new_range, min_range := new_range.1, max_range := new_range.2,
            game_history := some gh } }

/-- `GameEngine.validate_range` (main.py lines 136-138). -/
def validate_range (guess : Int) (current_range : Int × Int) : Bool :=
  decide (current_range.1 ≤ guess ∧ guess ≤ current_range.2)

/-- `GameEngine.process_guess` (main.py lines 79-134). Oracle inputs:
`reasoning` (the player advisor's text), `chosen` (the number a lazily
regenerated secret would carry), and `narration` (`some description` for a
successful narration call, `none` for a failed one — the exception
propagates, leaving every mutation already performed in place). The
`GuessContext` built on lines 107-116 is read-only and omitted. Python
mutates the stored `PlayerState` object in place, so the line-90 history
assignment and the line-124-127 commits are written back into the
`players` map. -/
def process_guess (reasoning : String) (chosen : Int) (narration : Option String)
    (player_id : String) (es : EngineState) : TurnResult × EngineState :=
  match es.players player_id with
  | none => (.keyError, es)
  | some ps0 =>
    if ps0.tries_remaining ≤ 0 then (.finished false, es)
    else
      let ps1 : PlayerState := { ps0 with game_history := some es.game_history }
      let es1 : EngineState :=
        { es with players := fun q => if q = player_id then some ps1 else es.players q }
      let da := decide_action reasoning ps1 es1.player_agent
      let action := da.1
      let es2 : EngineState := { es1 with player_agent := da.2 }
      if !(validate_range action.number es2.shared_valid_range) then (.finished false, es2)
      else
        let vg := validate_guess chosen action.number es2.game_rules player_id es2.referee
        let guess_result := vg.1
        let es3 : EngineState := { es2 with referee := vg.2 }
        match narration with
        | none => (.narrationFailed, es3)
        | some narr =>
          let es4 := update_game_state es3 guess_result.valid_range action.number narr
          let es5 : EngineState :=
            { es4 with
                players := fun q =>
                  if q = player_id then
                    (es4.players q).map fun p =>
                      { p with
                          last_feedback := some narr,
                          previous_guesses := p.previous_guesses ++ [action.number],
                          attempts := p.attempts + 1,
                          tries_remaining := p.tries_remaining - 1 }
                  else es4.players q }
          (.finished guess_result.is_correct, es5)

/-- A mid-game engine state: one registered player with the initial view,
referee holding secret 50 with no tries recorded yet. -/
def engineOnePlayer : EngineState :=
  { initialEngine with
      players := fun q =>
        if q = "player1" then some { player_id := "player1", game_history := some {} } else none,
      referee := refereeWith50,
      secret_number := some 50 }

/-- An engine state whose acting player still holds a stale view
`(1, 100)` of the range while the engine's shared range has narrowed to
`(60, 70)`, so the player's decided number (51) falls outside the shared
range. -/
def engineStaleView : EngineState :=
  { initialEngine with
      players := fun q =>
        if q = "player1" then some { player_id := "player1", game_history := some {} } else none,
      shared_valid_range := (60, 70),
      referee := refereeWith50,
      secret_number := some 50 }

/-- C2: the claim that a turn whose narration call fails leaves the
Referee's per-player tries counter and valid range unchanged is false at a
concrete input: from a fresh mid-game state, a turn whose narration fails
(after the guess 51 was submitted to the Referee) leaves the Referee with
the tries counter decremented from unset/3 to 2 and the range narrowed from
`(1, 100)` to `(1, 50)`. -/
theorem C2_counterexample :
    (process_guess "r" 0 none "player1" engineOnePlayer).1 = TurnResult.narrationFailed ∧
    engineOnePlayer.referee.player_tries "player1" = none ∧
    (process_guess "r" 0 none "player1" engineOnePlayer).2.referee.player_tries "player1" =
      some 2 ∧
    engineOnePlayer.referee.valid_range = (1, 100) ∧
    (process_guess "r" 0 none "player1" engineOnePlayer).2.referee.valid_range = (1, 50) := by
  refine ⟨?_, rfl, ?_, rfl, ?_⟩ <;> decide

/-- C3: the claim that an out-of-range decided number commits nothing is
false at a concrete input: with a stale player view the decided number 51
falls outside the shared range `(60, 70)` and the turn is rejected, yet 51
has already been appended to the shared player agent's own-guess list by
`decide_action`. -/
theorem C3_counterexample :
    (process_guess "r" 0 (some "n") "player1" engineStaleView).1 = TurnResult.finished false ∧
    validate_range 51 engineStaleView.shared_valid_range = false ∧
    engineStaleView.player_agent.previous_guesses = [] ∧
    (process_guess "r" 0 (some "n") "player1" engineStaleView).2.player_agent.previous_guesses =
      [51] := by
  refine ⟨?_, rfl, rfl, ?_⟩ <;> decide

/- ### Helper lemmas for the engine theorems -/

theorem decide_action_guesses (reasoning : String) (state : PlayerState)
    (ag : PlayerAgentState) (h : 0 < state.tries_remaining) :
    (decide_action reasoning state ag).2.previous_guesses =
      ag.previous_guesses ++ [(decide_action reasoning state ag).1.number] := by
  unfold decide_action
  dsimp only
  rw [if_neg (by omega : ¬ state.tries_remaining ≤ 0)]
  dsimp only
  cases hfb : truthyStr state.last_feedback with
  | false => simp [hfb]
  | true =>
      simp only [hfb, if_true]
      rw [(update_game_history_guesses { ag with tries_remaining := state.tries_remaining }
            state.last_feedback).1]

theorem get_tries_remaining_other (st : RefereeState) (pid q : String) (hq : q ≠ pid) :
    (get_tries_remaining st pid).2.player_tries q = st.player_tries q := by
  unfold get_tries_remaining
  cases st.player_tries pid with
  | none => simp [hq]
  | some t => rfl

theorem get_tries_remaining_self (st : RefereeState) (pid : String) :
    (get_tries_remaining st pid).2.player_tries pid = some (get_tries_remaining st pid).1 := by
  unfold get_tries_remaining
  cases h : st.player_tries pid with
  | none => simp
  | some t => exact h

theorem get_tries_remaining_found (st : RefereeState) (pid : String) (t : Int)
    (h : st.player_tries pid = some t) : get_tries_remaining st pid = (t, st) := by
  unfold get_tries_remaining
  rw [h]

theorem validate_guess_tries_other (chosen guess : Int) (rules : GameRules) (pid q : String)
    (st : RefereeState) (hq : q ≠ pid) :
    (validate_guess chosen guess rules pid st).2.player_tries q = st.player_tries q := by
  unfold validate_guess
  set st0 := if secret_unset st then (generate_secret_number chosen rules st).2 else st with hst0
  have h0 : st0.player_tries = st.player_tries := by
    rw [hst0]
    cases secret_unset st <;> rfl
  have h1 := get_tries_remaining_other st0 pid q hq
  dsimp only
  split
  · rw [h1, h0]
  · split <;> simp [hq, h1, h0]

theorem validate_guess_tries_found (chosen guess : Int) (rules : GameRules) (pid : String)
    (st : RefereeState) (t : Int) (h : st.player_tries pid = some t) :
    (validate_guess chosen guess rules pid st).2.player_tries pid =
      some (if 0 < t then t - 1 else t) := by
  unfold validate_guess
  set st0 := if secret_unset st then (generate_secret_number chosen rules st).2 else st with hst0
  have h0 : st0.player_tries = st.player_tries := by
    rw [hst0]
    cases secret_unset st <;> rfl
  have hfound : get_tries_remaining st0 pid = (t, st0) := by
    apply get_tries_remaining_found
    rw [h0, h]
  dsimp only
  rw [hfound]
  dsimp only
  by_cases ht : t ≤ 0
  · rw [if_pos ht, if_neg (by omega : ¬ 0 < t)]
    dsimp only
    rw [h0, h]
  · rw [if_neg ht, if_pos (by omega : 0 < t)]
    split <;> simp

/-- C3 (amended): for every turn in which the player's decided number falls
outside the engine's current shared range, the turn consumes no try and
advances no engine state — the Referee is not consulted, nothing is appended
to the game history, the shared range and turn counter are untouched, and
the engine-side player record keeps its tries and guess list — but the
chosen number has already been appended to the shared player agent's
own-guess list by `decide_action` itself, before any validation (the code
has no pending-versus-committed distinction). -/
theorem C3_out_of_range_turn (reasoning : String) (chosen : Int) (narration : Option String)
    (player_id : String) (es : EngineState) (ps : PlayerState)
    (hps : es.players player_id = some ps) (htries : 0 < ps.tries_remaining)
    (hrange : validate_range
        (decide_action reasoning { ps with game_history := some es.game_history }
          es.player_agent).1.number es.shared_valid_range = false) :
    (process_guess reasoning chosen narration player_id es).1 = TurnResult.finished false ∧
    (process_guess reasoning chosen narration player_id es).2.referee = es.referee ∧
    (process_guess reasoning chosen narration player_id es).2.game_history = es.game_history ∧
    (process_guess reasoning chosen narration player_id es).2.shared_valid_range =
      es.shared_valid_range ∧
    (process_guess reasoning chosen narration player_id es).2.current_turn = es.current_turn ∧
    ((process_guess reasoning chosen narration player_id es).2.players player_id).map
        (fun p => (p.tries_remaining, p.previous_guesses)) =
      some (ps.tries_remaining, ps.previous_guesses) ∧
    (process_guess reasoning chosen narration player_id es).2.player_agent.previous_guesses =
      es.player_agent.previous_guesses ++
        [(decide_action reasoning { ps with game_history := some es.game_history }
            es.player_agent).1.number] := by
  have hcommit := decide_action_guesses reasoning
    { ps with game_history := some es.game_history } es.player_agent htries
  unfold process_guess
  rw [hps]
  dsimp only
  rw [if_neg (by omega : ¬ ps.tries_remaining ≤ 0), hrange]
  refine ⟨rfl, rfl, rfl, rfl, rfl, ?_, hcommit⟩
  simp

/-- Witness for C3's amended theorem: at the concrete stale-view state the
turn is rejected and the Referee is untouched. -/
theorem C3_witness :
    (process_guess "r" 5 none "player1" engineStaleView).1 = TurnResult.finished false ∧
    (process_guess "r" 5 none "player1" engineStaleView).2.referee = engineStaleView.referee := by
  have h := C3_out_of_range_turn "r" 5 none "player1" engineStaleView
    { player_id := "player1", game_history := some {} } (by decide) (by decide) (by decide)
  exact ⟨h.1, h.2.1⟩

/-- C2 (amended): when the narration call fails (and in every other path of
`process_guess` that does not reach the commit), none of the engine-side
mutations take effect — the game history, shared range, turn counter, last
guess, and every engine-side player record's tries and guess list are
unchanged — but the Referee-side mutations already performed are not rolled
back: after a turn that passed validation and then lost its narration, the
engine's referee state is exactly the post-`validate_guess` state (tries
consumed, range narrowed). -/
theorem C2_narration_failure_not_atomic (reasoning : String) (chosen : Int)
    (player_id : String) (es : EngineState) :
    ((process_guess reasoning chosen none player_id es).2.game_history = es.game_history ∧
     (process_guess reasoning chosen none player_id es).2.shared_valid_range =
       es.shared_valid_range ∧
     (process_guess reasoning chosen none player_id es).2.current_turn = es.current_turn ∧
     (process_guess reasoning chosen none player_id es).2.last_guess = es.last_guess ∧
     ∀ q, ((process_guess reasoning chosen none player_id es).2.players q).map
            (fun p => (p.tries_remaining, p.previous_guesses)) =
          ((es.players q).map fun p => (p.tries_remaining, p.previous_guesses))) ∧
    (∀ ps : PlayerState, es.players player_id = some ps → 0 < ps.tries_remaining →
      validate_range (decide_action reasoning { ps with game_history := some es.game_history }
          es.player_agent).1.number es.shared_valid_range = true →
      (process_guess reasoning chosen none player_id es).1 = TurnResult.narrationFailed ∧
      (process_guess reasoning chosen none player_id es).2.referee =
        (validate_guess chosen
          (decide_action reasoning { ps with game_history := some es.game_history }
            es.player_agent).1.number es.game_rules player_id es.referee).2) := by
  unfold process_guess
  cases h : es.players player_id with
  | none =>
      refine ⟨⟨rfl, rfl, rfl, rfl, fun q => rfl⟩, ?_⟩
      intro ps hps
      cases hps
  | some ps0 =>
      dsimp only
      by_cases h0 : ps0.tries_remaining ≤ 0
      · rw [if_pos h0]
        refine ⟨⟨rfl, rfl, rfl, rfl, fun q => rfl⟩, ?_⟩
        intro ps hps htr hrange
        injection hps with he
        subst he
        omega
      · rw [if_neg h0]
        cases hv : validate_range (decide_action reasoning
            { ps0 with game_history := some es.game_history } es.player_agent).1.number
            es.shared_valid_range with
        | false =>
            refine ⟨⟨rfl, rfl, rfl, rfl, ?_⟩, ?_⟩
            · intro q
              by_cases hq : q = player_id
              · subst hq
                simp [h]
              · simp [hq]
            · intro ps hps htr hrange
              injection hps with he
              subst he
              rw [hrange] at hv
              cases hv
        | true =>
            refine ⟨⟨rfl, rfl, rfl, rfl, ?_⟩, ?_⟩
            · intro q
              by_cases hq : q = player_id
              · subst hq
                simp [h]
              · simp [hq]
            · intro ps hps htr hrange
              injection hps with he
              subst he
              exact ⟨rfl, rfl⟩

/-- Witness for C2's amended theorem at the concrete mid-game state (its
second part's hypotheses discharged at guess 51 over range `(1, 100)`). -/
theorem C2_witness :
    (process_guess "r" 0 none "player1" engineOnePlayer).2.game_history =
      engineOnePlayer.game_history ∧
    (process_guess "r" 0 none "player1" engineOnePlayer).1 = TurnResult.narrationFailed := by
  have h := C2_narration_failure_not_atomic "r" 0 "player1" engineOnePlayer
  have h2 := h.2 { player_id := "player1", game_history := some {} }
    (by decide) (by decide) (by decide)
  exact ⟨h.1.1, h2.1⟩

theorem start_game_fold_not_mem (es : EngineState) (pids : List String)
    (f : String → Option PlayerState) (pid : String) (h : pid ∉ pids) :
    (pids.foldl (fun ps p => fun q => if q = p then some (start_player es p) else ps q) f) pid =
      f pid := by
  induction pids generalizing f with
  | nil => rfl
  | cons a rest ih =>
      have hne : pid ≠ a := fun he => h (he ▸ List.mem_cons_self a rest)
      have hrest : pid ∉ rest := fun hm => h (List.mem_cons_of_mem a hm)
      rw [List.foldl_cons, ih _ hrest]
      simp [hne]

theorem start_game_fold_mem (es : EngineState) (pids : List String)
    (f : String → Option PlayerState) (pid : String) (h : pid ∈ pids) :
    (pids.foldl (fun ps p => fun q => if q = p then some (start_player es p) else ps q) f) pid =
      some (start_player es pid) := by
  induction pids generalizing f with
  | nil => cases h
  | cons a rest ih =>
      rw [List.foldl_cons]
      by_cases hrest : pid ∈ rest
      · exact ih _ hrest
      · have ha : pid = a := by
          rcases List.mem_cons.mp h with he | hm
          · exact he
          · exact absurd hm hrest
        rw [start_game_fold_not_mem es rest _ pid hrest]
        subst ha
        simp

theorem process_guess_tries_step (reasoning : String) (chosen : Int) (narration : Option String)
    (player_id q : String) (es : EngineState) (p p' : PlayerState)
    (hp : es.players q = some p)
    (hp' : (process_guess reasoning chosen narration player_id es).2.players q = some p') :
    p'.tries_remaining ≤ p.tries_remaining ∧
    p.tries_remaining - 1 ≤ p'.tries_remaining ∧
    (0 ≤ p.tries_remaining → 0 ≤ p'.tries_remaining) := by
  unfold process_guess update_game_state at hp'
  cases h : es.players player_id with
  | none =>
      rw [h] at hp'
      dsimp only at hp'
      rw [hp] at hp'
      injection hp' with he
      subst he
      omega
  | some ps0 =>
      rw [h] at hp'
      dsimp only at hp'
      by_cases h0 : ps0.tries_remaining ≤ 0
      · rw [if_pos h0] at hp'
        dsimp only at hp'
        rw [hp] at hp'
        injection hp' with he
        subst he
        omega
      · rw [if_neg h0] at hp'
        cases hv : validate_range (decide_action reasoning
            { ps0 with game_history := some es.game_history } es.player_agent).1.number
            es.shared_valid_range with
        | false =>
            rw [hv] at hp'
            simp only [Bool.not_false, eq_self_iff_true, if_true] at hp'
            by_cases hq : q = player_id
            · subst hq
              rw [if_pos rfl] at hp'
              injection hp' with he
              subst he
              rw [h] at hp
              injection hp with he
              subst he
              dsimp only
              omega
            · rw [if_neg hq] at hp'
              rw [hp] at hp'
              injection hp' with he
              subst he
              omega
        | true =>
            rw [hv] at hp'
            simp only [Bool.not_true, Bool.false_eq_true, if_false] at hp'
            cases narration with
            | none =>
                dsimp only at hp'
                by_cases hq : q = player_id
                · subst hq
                  rw [if_pos rfl] at hp'
                  injection hp' with he
                  subst he
                  rw [h] at hp
                  injection hp with he
                  subst he
                  dsimp only
                  omega
                · rw [if_neg hq] at hp'
                  rw [hp] at hp'
                  injection hp' with he
                  subst he
                  omega
            | some narr =>
                dsimp only at hp'
                by_cases hq : q = player_id
                · subst hq
                  rw [if_pos rfl, if_pos rfl] at hp'
                  injection hp' with he
                  subst he
                  rw [h] at hp
                  injection hp with he
                  subst he
                  dsimp only
                  omega
                · rw [if_neg hq, if_neg hq] at hp'
                  rw [hp] at hp'
                  injection hp' with he
                  subst he
                  dsimp only
                  omega

theorem validate_guess_tries_fresh (chosen guess : Int) (rules : GameRules) (pid : String)
    (st : RefereeState) (h : st.player_tries pid = none) :
    (validate_guess chosen guess rules pid st).2.player_tries pid = some 2 := by
  unfold validate_guess
  set st0 := if secret_unset st then (generate_secret_number chosen rules st).2 else st with hst0
  have h0 : st0.player_tries = st.player_tries := by
    rw [hst0]
    cases secret_unset st <;> rfl
  have hlook : st0.player_tries pid = none := by rw [h0]; exact h
  have hfr : get_tries_remaining st0 pid =
      (3, { st0 with player_tries := fun q => if q = pid then some 3 else st0.player_tries q }) := by
    unfold get_tries_remaining
    rw [hlook]
  dsimp only
  rw [hfr]
  dsimp only
  rw [if_neg (by norm_num : ¬ (3 : Int) ≤ 0)]
  split <;> norm_num

/-- A referee holding secret 50 with player `"p1"` already on the books
with 3 tries. -/
def refereeP1three : RefereeState :=
  { refereeWith50 with player_tries := fun q => if q = "p1" then some 3 else none }

/-- C8: per-player tries are monotonically non-increasing and never go
below 0, on both sides. (1) `start_game` initializes every engine-side
counter to the configured budget `game_rules.max_tries_per_player` (the
`GameEngine` constructor hardcodes that budget to 3). (2) The Referee-side
counter starts, on first sight of any player, at that same configured
budget. (3) A processed turn changes any player's engine-side counter by at
most one downward, and a non-negative counter stays non-negative. (4) On
the Referee side, `validate_guess` decrements the acting player's counter
by exactly one when positive and leaves it unchanged when exhausted — never
below 0 — and (5) never touches other players' counters; (6) a first-sight
`validate_guess` leaves the fresh player at 2 = 3 − 1 ≥ 0. -/
theorem C8_tries_monotone :
    (∀ (chosen : Int) (pids : List String) (pid : String), pid ∈ pids →
       ((start_game chosen pids initialEngine).players pid).map (fun p => p.tries_remaining) =
         some initialEngine.game_rules.max_tries_per_player) ∧
    (∀ pid : String,
       initialEngine.referee.player_tries pid = none ∧
       (get_tries_remaining initialEngine.referee pid).1 =
         initialEngine.game_rules.max_tries_per_player) ∧
    (∀ (reasoning : String) (chosen : Int) (narration : Option String)
       (player_id q : String) (es : EngineState) (p p' : PlayerState),
       es.players q = some p →
       (process_guess reasoning chosen narration player_id es).2.players q = some p' →
       p'.tries_remaining ≤ p.tries_remaining ∧
       p.tries_remaining - 1 ≤ p'.tries_remaining ∧
       (0 ≤ p.tries_remaining → 0 ≤ p'.tries_remaining)) ∧
    (∀ (chosen guess : Int) (rules : GameRules) (pid : String) (st : RefereeState) (t : Int),
       st.player_tries pid = some t →
       (validate_guess chosen guess rules pid st).2.player_tries pid =
           some (if 0 < t then t - 1 else t) ∧
         (if 0 < t then t - 1 else t) ≤ t ∧
         t - 1 ≤ (if 0 < t then t - 1 else t) ∧
         (0 ≤ t → 0 ≤ if 0 < t then t - 1 else t)) ∧
    (∀ (chosen guess : Int) (rules : GameRules) (pid q : String) (st : RefereeState),
       q ≠ pid →
       (validate_guess chosen guess rules pid st).2.player_tries q = st.player_tries q) ∧
    (∀ (chosen guess : Int) (rules : GameRules) (pid : String) (st : RefereeState),
       st.player_tries pid = none →
       (validate_guess chosen guess rules pid st).2.player_tries pid = some 2) := by
  refine ⟨?_, ?_, ?_, ?_, ?_, ?_⟩
  · intro chosen pids pid h
    unfold start_game
    dsimp only
    rw [start_game_fold_mem initialEngine pids initialEngine.players pid h]
    rfl
  · intro pid
    exact ⟨rfl, rfl⟩
  · exact process_guess_tries_step
  · intro chosen guess rules pid st t ht
    refine ⟨validate_guess_tries_found chosen guess rules pid st t ht, ?_, ?_, ?_⟩ <;>
      split <;> omega
  · exact validate_guess_tries_other
  · exact validate_guess_tries_fresh

/-- Witness for C8: a two-player `start_game` gives the engine-side budget
3, and a referee-side counter at 3 is decremented to 2 by one validated
guess. -/
theorem C8_witness :
    ((start_game 50 ["player1", "player2"] initialEngine).players "player1").map
        (fun p => p.tries_remaining) = some initialEngine.game_rules.max_tries_per_player ∧
    (validate_guess 0 75 {} "p1" refereeP1three).2.player_tries "p1" =
      some (if 0 < (3 : Int) then 3 - 1 else 3) := by
  constructor
  · exact C8_tries_monotone.1 50 ["player1", "player2"] "player1" (by decide)
  · exact (C8_tries_monotone.2.2.2.1 0 75 {} "p1" refereeP1three 3 (by decide)).1

end NumberGame
